import Mathlib

/-!
Shallow embedding of `traffic_monitor.py` (pavan-elisetty/traffic-monitor).

The Python module drives a headless browser against Google Maps and records
travel durations.  The pure core embedded here:

* `extract_duration_minutes` — regex-based duration-text parser;
* `determine_direction_from_time` — hour-window route selection;
* `_extract_travel_data` — selector-chain page extraction with a regex
  fallback and a traffic-status scan (`extractTravelData` below);
* `scrape_google_maps` — orchestration with exception-to-None conversion
  and scoped browser-session release (modelled as an event trace);
* `run` — the top-level coordinator (modelled by its effect record).

Machine strings are `String` over ASCII; the regexes used by the source
(`(\d+)\s*h`, `(\d+)\s*min`, and the fallback time pattern) are embedded as
deterministic scanners — determinism is justified where each greedy
quantifier is forced because the character classes involved are disjoint.
-/

namespace TrafficMonitor

/-- ASCII fragment of Python's regex class `\s` (space, tab, LF, CR, VT, FF). -/
def isPySpace (c : Char) : Bool :=
  c = ' ' || c = '\t' || c = '\n' || c = '\r' || c = '\x0b' || c = '\x0c'

/-- Python `str.lower()` restricted to ASCII. -/
def pyLower (s : String) : String :=
  String.mk (s.toList.map Char.toLower)

/-- Python substring test `pat in s`, on character lists. -/
def containsSub : List Char → List Char → Bool
  | [], pat => pat.isEmpty
  | c :: t, pat => pat.isPrefixOf (c :: t) || containsSub t pat

/-- Python substring test `pat in s` on strings. -/
def pyContains (s pat : String) : Bool :=
  containsSub s.toList pat.toList

/-- Python `str.strip()` (default whitespace stripping), ASCII fragment. -/
def pyStrip (s : String) : String :=
  String.mk (((s.toList.dropWhile isPySpace).reverse.dropWhile isPySpace).reverse)

/-- Python `int(...)` on a non-empty ASCII digit string. -/
def digitsToNat (ds : List Char) : Nat :=
  ds.foldl (fun a c => a * 10 + (c.toNat - '0'.toNat)) 0

/-- Case-insensitive literal prefix match (pattern chars given in lowercase),
modelling a literal under `re.IGNORECASE`. -/
def ciPrefix : List Char → List Char → Bool
  | [], _ => true
  | _ :: _, [] => false
  | p :: ps, c :: cs => (c.toLower = p) && ciPrefix ps cs

/-- Anchored match of `(\d+)\s*h` (IGNORECASE) at the front of `cs`, returning
the captured digit group as a number.  The greedy `\d+` is forced to take the
maximal digit run (a shorter take leaves a digit where `\s*h` must match), and
`\s*` is forced maximal likewise, so backtracking is determinate. -/
def hourMatchAt (cs : List Char) : Option Nat :=
  let ds := cs.takeWhile Char.isDigit
  if ds.isEmpty then none
  else
    let rest := (cs.dropWhile Char.isDigit).dropWhile isPySpace
    match rest with
    | c :: _ => if c.toLower = 'h' then some (digitsToNat ds) else none
    | [] => none

/-- `re.search(r'(\d+)\s*h', s, re.IGNORECASE)`: leftmost anchored match. -/
def searchHour : List Char → Option Nat
  | [] => none
  | c :: t =>
    match hourMatchAt (c :: t) with
    | some n => some n
    | none => searchHour t

/-- Anchored match of `(\d+)\s*min` (IGNORECASE) at the front of `cs`. -/
def minMatchAt (cs : List Char) : Option Nat :=
  let ds := cs.takeWhile Char.isDigit
  if ds.isEmpty then none
  else
    let rest := (cs.dropWhile Char.isDigit).dropWhile isPySpace
    if ciPrefix ['m', 'i', 'n'] rest then some (digitsToNat ds) else none

/-- `re.search(r'(\d+)\s*min', s, re.IGNORECASE)`: leftmost anchored match. -/
def searchMin : List Char → Option Nat
  | [] => none
  | c :: t =>
    match minMatchAt (c :: t) with
    | some n => some n
    | none => searchMin t

/-- Embedding of `TrafficMonitor.extract_duration_minutes` (lines 77–97):
search for an hour component `(\d+)\s*h` contributing `hours*60`, a minute
component `(\d+)\s*min` contributing `minutes`, and return the total when it
is strictly positive, `None` otherwise.  The Python `try/except` cannot fire
(the regex machinery and `int` on `\d+` never raise); totality of this Lean
function models "never raises on malformed input". -/
def extract_duration_minutes (duration_text : String) : Option Nat :=
  let cs := duration_text.toList
  let total :=
    (match searchHour cs with
     | some h => h * 60
     | none => 0)
    + (match searchMin cs with
       | some m => m
       | none => 0)
  if 0 < total then some total else none

/-- Compiled-in constant `MORNING_WINDOW = (10, 12)`. -/
def MORNING_WINDOW : Nat × Nat := (10, 12)

/-- Compiled-in constant `EVENING_WINDOW = (16, 18)`. -/
def EVENING_WINDOW : Nat × Nat := (16, 18)

/-- Embedding of `TrafficMonitor.determine_direction_from_time`
(lines 58–75), as a function of the current local hour. -/
def determine_direction_from_time (current_hour : Nat) : String :=
  if MORNING_WINDOW.1 ≤ current_hour ∧ current_hour < MORNING_WINDOW.2 then
    "home_to_office"
  else if EVENING_WINDOW.1 ≤ current_hour ∧ current_hour < EVENING_WINDOW.2 then
    "office_to_home"
  else
    "home_to_office"

/-- A rendered page as the extractor observes it: `queryAll sel` models
`page.query_selector_all(sel)` followed by `inner_text()` on each element
(`none` models a raised lookup exception, swallowed by the per-selector
`try/except`); `content` models `page.content()`; `bodyText` models
`page.inner_text('body')`. -/
structure Page where
  queryAll : String → Option (List String)
  content : String
  bodyText : String

/-- The dictionary returned by `_extract_travel_data`. -/
structure TravelData where
  duration_text : String
  duration_minutes : Nat
  distance : String
  traffic_status : String
deriving DecidableEq, Repr

/-- The `duration_selectors` list (lines 152–158). -/
def duration_selectors : List String :=
  ["div.Fk3sm.fontHeadlineSmall", "div[jstcache=\"3\"]",
   "h1.TnqQD-ZMv3u-headline-4-text", "div.XdKEzd", "span.delay"]

/-- The `distance_selectors` list (lines 176–179). -/
def distance_selectors : List String :=
  ["div.Fk3sm.fontBodyMedium", "div.ivN21e.tUEI8e.fontBodyMedium"]

/-- The duration filter: `'min' in text.lower() or 'hour' in text.lower()`. -/
def looksLikeDuration (text : String) : Bool :=
  pyContains (pyLower text) "min" || pyContains (pyLower text) "hour"

/-- The distance filter: `'km' in text.lower() or 'mi' in text.lower()`. -/
def looksLikeDistance (text : String) : Bool :=
  pyContains (pyLower text) "km" || pyContains (pyLower text) "mi"

/-- The selector loop of `_extract_travel_data` (lines 160–173 and 181–194):
walk the selector list in order; a failed lookup is swallowed (`except:
continue`); otherwise strip each matched element's text and accept the first
one passing the filter, stopping at the first acceptance. -/
def findFirstText (p : Page) (selectors : List String) (accept : String → Bool) :
    Option String :=
  match selectors with
  | [] => none
  | sel :: rest =>
    match p.queryAll sel with
    | none => findFirstText p rest accept
    | some ts =>
      match (ts.map pyStrip).find? accept with
      | some t => some t
      | none => findFirstText p rest accept

/-- The traffic-status scan of `_extract_travel_data` (lines 196–205):
initialised to "Unknown", gated on a coarse `"traffic" in content.lower()`
pre-check, then heavy / moderate / light checked in that order. -/
def trafficStatus (page_content : String) : String :=
  if pyContains (pyLower page_content) "traffic" then
    if pyContains (pyLower page_content) "heavy traffic" then "Heavy traffic"
    else if pyContains (pyLower page_content) "moderate traffic" then "Moderate traffic"
    else if pyContains (pyLower page_content) "light traffic" then "Light traffic"
    else "Unknown"
  else "Unknown"

/-- Modelled from the spec: the same traffic-status scan with the coarse
`"traffic"`-substring pre-check removed, which the spec asserts is a pure
optimization gate ("an implementer may drop the pre-check without changing
behavior").  Compared against `trafficStatus` in the refinement claim. -/
def trafficStatusNoGate (page_content : String) : String :=
  if pyContains (pyLower page_content) "heavy traffic" then "Heavy traffic"
  else if pyContains (pyLower page_content) "moderate traffic" then "Moderate traffic"
  else if pyContains (pyLower page_content) "light traffic" then "Light traffic"
  else "Unknown"

/-- Python regex word character `\w`, ASCII fragment: alphanumeric or `_`. -/
def isWordChar (c : Char) : Bool :=
  c.isAlphanum || c = '_'

/-- Word boundary at the end of the fallback pattern: the pattern's last
character `n` is a word character, so `\b` holds iff the next input character
is absent or not a word character. -/
def endBoundaryOk : List Char → Bool
  | [] => true
  | c :: _ => !isWordChar c

/-- Anchored match of the optional group `(\d+\s*h(?:our)?s?\s*)` of the
fallback pattern (line 223), returning (captured text, remainder).  Each
greedy piece is forced: a shorter `\d+` take leaves a digit where `\s*h`
must match; a shorter `\s*` take leaves whitespace where `h` must match;
declining a present `our` or `s` leaves `o` or `s` where the following
group's `\d+` must match; the trailing `\s*` is maximal since the next
group starts with a digit. -/
def g1MatchAt (cs : List Char) : Option (List Char × List Char) :=
  let ds := cs.takeWhile Char.isDigit
  if ds.isEmpty then none
  else
    let r1 := cs.dropWhile Char.isDigit
    let ws1 := r1.takeWhile isPySpace
    let r2 := r1.dropWhile isPySpace
    match r2 with
    | c :: r3 =>
      if c.toLower = 'h' then
        let (ourPart, r4) :=
          if ciPrefix ['o', 'u', 'r'] r3 then (r3.take 3, r3.drop 3)
          else (([] : List Char), r3)
        let (sPart, r5) :=
          match r4 with
          | c2 :: r => if c2.toLower = 's' then ([c2], r) else (([] : List Char), r4)
          | [] => (([] : List Char), r4)
        some (ds ++ ws1 ++ [c] ++ ourPart ++ sPart ++ r5.takeWhile isPySpace,
              r5.dropWhile isPySpace)
      else none
    | [] => none

/-- Anchored match of the required group `(\d+\s*min)` of the fallback
pattern, returning (captured text, remainder); greediness forced as in
`g1MatchAt`. -/
def g2MatchAt (cs : List Char) : Option (List Char × List Char) :=
  let ds := cs.takeWhile Char.isDigit
  if ds.isEmpty then none
  else
    let r1 := cs.dropWhile Char.isDigit
    let ws := r1.takeWhile isPySpace
    let r2 := r1.dropWhile isPySpace
    if ciPrefix ['m', 'i', 'n'] r2 then
      some (ds ++ ws ++ r2.take 3, r2.drop 3)
    else none

/-- Anchored match of the whole fallback pattern
`\b(\d+\s*h(?:our)?s?\s*)?(\d+\s*min)\b` at the current position, returning
the two capture groups (group 1 is `[]` when the optional group does not
participate, matching Python's empty-string group in `findall`).  Any match
starts with a digit (a word character), so the leading `\b` holds iff the
preceding character is absent or not a word character (`prevIsWord = false`).
If group 1 matches but the rest fails, skipping group 1 cannot succeed at the
same position (after the digits and whitespace stands `h`, never `m`), so no
further backtracking is needed. -/
def tpMatchAt (prevIsWord : Bool) (cs : List Char) : Option (List Char × List Char) :=
  if prevIsWord then none
  else
    match g1MatchAt cs with
    | some (g1, r) =>
      match g2MatchAt r with
      | some (g2, r2) => if endBoundaryOk r2 then some (g1, g2) else none
      | none => none
    | none =>
      match g2MatchAt cs with
      | some (g2, r2) => if endBoundaryOk r2 then some ([], g2) else none
      | none => none

/-- Leftmost match of the fallback pattern, i.e. the first tuple of
`re.findall(time_pattern, body_text, re.IGNORECASE)` (line 224). -/
def tpSearch : Bool → List Char → Option (List Char × List Char)
  | _, [] => none
  | prevIsWord, c :: t =>
    match tpMatchAt prevIsWord (c :: t) with
    | some r => some r
    | none => tpSearch (isWordChar c) t

/-- The fallback duration text of `_extract_travel_data` (lines 222–227):
first match of the time pattern over the body text, non-empty groups joined
by a single space (`' '.join(filter(None, matches[0]))`), then stripped. -/
def fallbackDurationText (body_text : String) : Option String :=
  (tpSearch false body_text.toList).map (fun g =>
    pyStrip (String.intercalate " "
      (([String.mk g.1, String.mk g.2]).filter (fun s => !s.isEmpty))))

/-- The record-building step shared by lines 207–216 and 228–236: parse a
candidate duration text and, when minutes come out (Python `if
duration_minutes:` — the parser only ever returns positive numbers), build
the result dictionary.  `distance or "N/A"` becomes `getD "N/A"`; an
accepted distance text contains `km`/`mi`, hence is never empty. -/
def attemptParse (dist? : Option String) (ts : String) (dt : String) :
    Option TravelData :=
  match extract_duration_minutes dt with
  | some m => some ⟨dt, m, dist?.getD "N/A", ts⟩
  | none => none

/-- The fallback block of `_extract_travel_data` (lines 218–238): regex over
the body text, then the same parse-and-build step; `None` when the pattern
does not match or the parse yields no minutes. -/
def fallbackStep (p : Page) (dist? : Option String) (ts : String) :
    Option TravelData :=
  match fallbackDurationText p.bodyText with
  | some dt => attemptParse dist? ts dt
  | none => none

/-- Embedding of `TrafficMonitor._extract_travel_data` (lines 145–242):
selector-based duration and distance, traffic-status scan, then — when the
selector path yields no parsed minutes — the body-text fallback; `None` when
neither path parses to minutes. -/
def extractTravelData (p : Page) : Option TravelData :=
  let dt? := findFirstText p duration_selectors looksLikeDuration
  let dist? := findFirstText p distance_selectors looksLikeDistance
  let ts := trafficStatus p.content
  match dt? with
  | some dt =>
    match attemptParse dist? ts dt with
    | some r => some r
    | none => fallbackStep p dist? ts
  | none => fallbackStep p dist? ts

/-- Outcome of the browser navigation inside `scrape_google_maps`: the page
loads (`ok`) or some step of launch/navigation raises (`err`). -/
inductive NavResult where
  | ok (p : Page)
  | err (msg : String)

/-- Observable resource events of one `scrape_google_maps` call. -/
inductive ScrapeEvent where
  | startPlaywright
  | launchBrowser
  | navigate
  | extractStep
  | closeBrowser
  | stopPlaywright
deriving DecidableEq, Repr

/-- The body of `scrape_google_maps` (lines 104–139), before the enclosing
`try/except`: the event trace of the `with sync_playwright()` block together
with the raised exception or returned value.  On the exception path
`browser.close()` (line 132) is skipped, but leaving the `with` block stops
Playwright, which closes every browser it launched — hence `stopPlaywright`
closes the trace on both paths. -/
def scrapeExec (nav : NavResult) : List ScrapeEvent × Except String (Option TravelData) :=
  match nav with
  | .err m =>
    ([.startPlaywright, .launchBrowser, .navigate, .stopPlaywright],
     .error m)
  | .ok p =>
    ([.startPlaywright, .launchBrowser, .navigate, .extractStep,
      .closeBrowser, .stopPlaywright],
     .ok (extractTravelData p))

/-- Embedding of `TrafficMonitor.scrape_google_maps` (lines 99–143): the
enclosing `try/except` converts any exception of the body into `None`
(logged), so the caller always receives a plain optional value. -/
def scrape_google_maps (nav : NavResult) : List ScrapeEvent × Option TravelData :=
  match scrapeExec nav with
  | (tr, .error _) => (tr, none)
  | (tr, .ok d) => (tr, d)

/-- Whether the launched browser is still open after a trace: `launch` opens
it, `browser.close()` closes it, and Playwright's stop closes any browser it
launched. -/
def browserOpenAfter (events : List ScrapeEvent) : Bool :=
  events.foldl
    (fun openB e =>
      match e with
      | .launchBrowser => true
      | .closeBrowser => false
      | .stopPlaywright => false
      | _ => openB)
    false

/-- Externally observable effects of one `run` invocation. -/
structure RunResult where
  scrapeCalled : Bool
  saveCalled : Bool
  report : String
deriving DecidableEq, Repr

/-- Embedding of `TrafficMonitor.run` (lines 267–314), parameterised by the
external world: `autoHour` is the current local hour (used only when no
direction is given), `scrapeResult` is what `scrape_google_maps` would
return, and `saveOk` is what `save_to_supabase` would return.
`scrapeCalled` records that the scrape (the only network activity) ran;
`saveCalled` records that the Persistence Adapter was invoked. -/
def run (route_direction : Option String) (autoHour : Nat)
    (scrapeResult : Option TravelData) (saveOk : Bool) : RunResult :=
  let dir := route_direction.getD (determine_direction_from_time autoHour)
  if dir = "home_to_office" ∨ dir = "office_to_home" then
    match scrapeResult with
    | some _ =>
      if saveOk then ⟨true, true, "saved"⟩
      else ⟨true, true, "save_failed"⟩
    | none => ⟨true, false, "extract_failed"⟩
  else
    ⟨false, false, "invalid_direction"⟩

/-- A page whose every selector lookup raises. -/
def pErr : Page :=
  { queryAll := fun _ => none, content := "", bodyText := "" }

/-- A page where only the fourth duration selector matches, with padded text. -/
def pSample : Page :=
  { queryAll := fun sel => if sel = "div.XdKEzd" then some ["  25 min  "] else some []
  , content := "all clear"
  , bodyText := "" }

/-- A page with no selector hits whose body contains a zero-minute duration. -/
def pZero : Page :=
  { queryAll := fun _ => some []
  , content := ""
  , bodyText := "about 0 min now" }

/-! ## Helper lemmas -/

/-- A prefix occurrence is a substring occurrence. -/
theorem containsSub_of_isPrefixOf (s p : List Char) (h : p.isPrefixOf s = true) :
    containsSub s p = true := by
  cases s with
  | nil =>
    cases p with
    | nil => rfl
    | cons a t => simp [List.isPrefixOf] at h
  | cons c t => simp [containsSub, h]

/-- If `a ++ b` is a prefix of `s`, then `b` occurs inside `s`. -/
theorem containsSub_of_append_isPrefixOf (a : List Char) :
    ∀ (b s : List Char), (a ++ b).isPrefixOf s = true → containsSub s b = true := by
  induction a with
  | nil =>
    intro b s h
    exact containsSub_of_isPrefixOf s b (by simpa using h)
  | cons x a ih =>
    intro b s h
    cases s with
    | nil => simp [List.isPrefixOf] at h
    | cons y t =>
      simp only [List.cons_append, List.isPrefixOf, Bool.and_eq_true] at h
      simp [containsSub, ih b t h.2]

/-- Substring occurrence is preserved when the pattern is cut down to a
suffix: if `a ++ b` occurs in `s` then so does `b`. -/
theorem containsSub_append_right (a b : List Char) :
    ∀ s : List Char, containsSub s (a ++ b) = true → containsSub s b = true := by
  intro s
  induction s with
  | nil =>
    intro h
    simp only [containsSub, List.isEmpty_iff, List.append_eq_nil] at h
    simp [containsSub, h.2]
  | cons c t ih =>
    intro h
    simp only [containsSub, Bool.or_eq_true] at h
    rcases h with h1 | h2
    · exact containsSub_of_append_isPrefixOf a b (c :: t) h1
    · simp [containsSub, ih h2]

/-- The coarse gate implied by the heavy check: a page containing
"heavy traffic" contains "traffic". -/
theorem traffic_of_heavy (s : String) (h : pyContains s "heavy traffic" = true) :
    pyContains s "traffic" = true := by
  have hsplit : ("heavy traffic").toList = ("heavy ").toList ++ ("traffic").toList := by
    decide
  unfold pyContains at h ⊢
  rw [hsplit] at h
  exact containsSub_append_right _ _ _ h

/-- A page containing "moderate traffic" contains "traffic". -/
theorem traffic_of_moderate (s : String) (h : pyContains s "moderate traffic" = true) :
    pyContains s "traffic" = true := by
  have hsplit : ("moderate traffic").toList = ("moderate ").toList ++ ("traffic").toList := by
    decide
  unfold pyContains at h ⊢
  rw [hsplit] at h
  exact containsSub_append_right _ _ _ h

/-- A page containing "light traffic" contains "traffic". -/
theorem traffic_of_light (s : String) (h : pyContains s "light traffic" = true) :
    pyContains s "traffic" = true := by
  have hsplit : ("light traffic").toList = ("light ").toList ++ ("traffic").toList := by
    decide
  unfold pyContains at h ⊢
  rw [hsplit] at h
  exact containsSub_append_right _ _ _ h

/-- The duration parser only ever reports strictly positive totals. -/
theorem extract_pos (s : String) (n : Nat)
    (h : extract_duration_minutes s = some n) : 0 < n := by
  simp only [extract_duration_minutes] at h
  split at h
  · exact (Option.some.inj h) ▸ (by assumption)
  · exact absurd h (by simp)

/-- `List.find?` returns the head of the filtered list: the first element in
order passing the test. -/
theorem find?_eq_head?_filter (f : String → Bool) :
    ∀ l : List String, l.find? f = (l.filter f).head? := by
  intro l
  induction l with
  | nil => rfl
  | cons a t ih =>
    cases h : f a with
    | true =>
      rw [List.find?_cons_of_pos t h, List.filter_cons_of_pos h, List.head?_cons]
    | false =>
      rw [List.find?_cons_of_neg t (by simp [h]),
        List.filter_cons_of_neg (by simp [h]), ih]

/-- A successful `attemptParse` record has a parse-consistent, positive
duration. -/
theorem attemptParse_inv (dist? : Option String) (ts dt : String) (r : TravelData)
    (h : attemptParse dist? ts dt = some r) :
    extract_duration_minutes r.duration_text = some r.duration_minutes ∧
      1 ≤ r.duration_minutes := by
  unfold attemptParse at h
  cases hm : extract_duration_minutes dt with
  | none => rw [hm] at h; exact absurd h (by simp)
  | some m =>
    rw [hm] at h
    have hr := Option.some.inj h
    subst hr
    exact ⟨hm, extract_pos dt m hm⟩

/-- A successful fallback record has a parse-consistent, positive duration. -/
theorem fallbackStep_inv (p : Page) (dist? : Option String) (ts : String)
    (r : TravelData) (h : fallbackStep p dist? ts = some r) :
    extract_duration_minutes r.duration_text = some r.duration_minutes ∧
      1 ≤ r.duration_minutes := by
  unfold fallbackStep at h
  cases hf : fallbackDurationText p.bodyText with
  | none => rw [hf] at h; exact absurd h (by simp)
  | some dt =>
    rw [hf] at h
    exact attemptParse_inv dist? ts dt r h

/-- The parser's result, rephrased through `Option.getD`: the total of the
two component searches when positive, `none` otherwise. -/
theorem extract_eq (s : String) :
    extract_duration_minutes s =
      if 0 < (searchHour s.toList).getD 0 * 60 + (searchMin s.toList).getD 0
      then some ((searchHour s.toList).getD 0 * 60 + (searchMin s.toList).getD 0)
      else none := by
  simp only [extract_duration_minutes]
  cases searchHour s.toList <;> cases searchMin s.toList <;> simp [Option.getD]

/-! ## Claim theorems -/

/-- C1: the duration parser scans case-insensitively for a first hour
component (digits, optional spaces, `h…`) contributing `hours*60` and a
first minute component (digits, optional spaces, `min`) contributing
`minutes`, and returns the total exactly when it is strictly positive and
no result otherwise: "1 hour 15 min" yields 75, "25 min" yields 25, "2h"
yields 120, while "no numbers here" and "0 min" yield no result; it never
raises on malformed input (the embedding is a total function). -/
theorem C1_duration_scan :
    extract_duration_minutes "1 hour 15 min" = some 75 ∧
    extract_duration_minutes "25 min" = some 25 ∧
    extract_duration_minutes "2h" = some 120 ∧
    extract_duration_minutes "no numbers here" = none ∧
    extract_duration_minutes "0 min" = none ∧
    (∀ (s : String) (n : Nat), extract_duration_minutes s = some n →
      0 < n ∧
        n = (searchHour s.toList).getD 0 * 60 + (searchMin s.toList).getD 0) ∧
    (∀ s : String, extract_duration_minutes s = none →
      (searchHour s.toList).getD 0 * 60 + (searchMin s.toList).getD 0 = 0) := by
  refine ⟨by decide, by decide, by decide, by decide, by decide, ?_, ?_⟩
  · intro s n h
    rw [extract_eq] at h
    split at h
    · next hpos =>
      have hn := Option.some.inj h
      exact ⟨by omega, by omega⟩
    · exact absurd h (by simp)
  · intro s h
    rw [extract_eq] at h
    split at h
    · exact absurd h (by simp)
    · next hneg => omega

/-- Witness for C1 at the concrete input "25 min". -/
theorem C1_duration_scan_witness :
    0 < 25 ∧
      25 = (searchHour ("25 min").toList).getD 0 * 60 +
        (searchMin ("25 min").toList).getD 0 :=
  C1_duration_scan.2.2.2.2.2.1 "25 min" 25 (by decide)

/-- C2: the direction resolver is total over hours 0–23 and returns
home_to_office on [10,12), office_to_home on [16,18), and the default
home_to_office on every other hour; hours 9, 12 and 20 resolve to
home_to_office and hour 17 to office_to_home. -/
theorem C2_direction_resolver :
    (∀ h : Nat, h ≤ 23 →
      determine_direction_from_time h =
        if 10 ≤ h ∧ h < 12 then "home_to_office"
        else if 16 ≤ h ∧ h < 18 then "office_to_home"
        else "home_to_office") ∧
    determine_direction_from_time 9 = "home_to_office" ∧
    determine_direction_from_time 12 = "home_to_office" ∧
    determine_direction_from_time 20 = "home_to_office" ∧
    determine_direction_from_time 17 = "office_to_home" := by
  refine ⟨?_, by decide, by decide, by decide, by decide⟩
  intro h _
  simp [determine_direction_from_time, MORNING_WINDOW, EVENING_WINDOW]

/-- Witness for C2 at the concrete hour 11. -/
theorem C2_direction_resolver_witness :
    determine_direction_from_time 11 =
      if 10 ≤ 11 ∧ 11 < 12 then "home_to_office"
      else if 16 ≤ 11 ∧ 11 < 18 then "office_to_home"
      else "home_to_office" :=
  C2_direction_resolver.1 11 (by decide)

/-- C3: the duration strategy walks the selector list in priority order and
the matched, stripped element texts in document order, accepting the first
text containing "min" or "hour" case-insensitively regardless of later
selectors; a failing selector lookup is swallowed and behaves exactly as a
selector that found nothing. -/
theorem C3_selector_priority :
    (∀ (p : Page) (sel : String) (rest : List String),
      p.queryAll sel = none →
      findFirstText p (sel :: rest) looksLikeDuration =
        findFirstText p rest looksLikeDuration) ∧
    (∀ (p : Page) (sel : String) (rest : List String) (ts : List String) (t : String),
      p.queryAll sel = some ts →
      (ts.map pyStrip).find? looksLikeDuration = some t →
      findFirstText p (sel :: rest) looksLikeDuration = some t) ∧
    (∀ (p : Page) (sel : String) (rest : List String) (ts : List String),
      p.queryAll sel = some ts →
      (ts.map pyStrip).find? looksLikeDuration = none →
      findFirstText p (sel :: rest) looksLikeDuration =
        findFirstText p rest looksLikeDuration) ∧
    (∀ ts : List String,
      ts.find? looksLikeDuration = (ts.filter looksLikeDuration).head?) := by
  refine ⟨?_, ?_, ?_, find?_eq_head?_filter looksLikeDuration⟩
  · intro p sel rest h
    simp [findFirstText, h]
  · intro p sel rest ts t hq hf
    simp [findFirstText, hq, hf]
  · intro p sel rest ts hq hf
    simp [findFirstText, hq, hf]

/-- Witness for C3: a raising selector behaves as an exhausted one. -/
theorem C3_selector_priority_witness :
    findFirstText pErr ("div.XdKEzd" :: []) looksLikeDuration =
      findFirstText pErr [] looksLikeDuration :=
  C3_selector_priority.1 pErr "div.XdKEzd" [] rfl

/-- C4 counterexample: on the body "Travel is about 1 h 10 min by
two-wheeler" the fallback produces duration_text "1 h  10 min" — with two
spaces, because the optional hour group captures its trailing whitespace —
not the "1 h 10 min" the claim states. -/
theorem C4_fallback_counterexample :
    fallbackDurationText "Travel is about 1 h 10 min by two-wheeler" =
      some "1 h  10 min" ∧
    (some "1 h  10 min" : Option String) ≠ some "1 h 10 min" := by
  exact ⟨by decide, by decide⟩

/-- C4 (amended): the fallback searches the body for an optional hour group
followed by a required minute group at word boundaries, takes the first
match and joins its non-empty captured groups with a space; on the sample
body this yields duration_text "1 h  10 min" (the hour group captures its
trailing whitespace, so the join leaves a double space), which parses to 70
minutes; and whenever the selector path produced no minutes and the
fallback text parses to no minutes, the whole extraction returns nothing. -/
theorem C4_fallback_amended :
    fallbackDurationText "Travel is about 1 h 10 min by two-wheeler" =
      some "1 h  10 min" ∧
    extract_duration_minutes "1 h  10 min" = some 70 ∧
    (∀ (p : Page) (dt : String),
      (findFirstText p duration_selectors looksLikeDuration).bind
          extract_duration_minutes = none →
      fallbackDurationText p.bodyText = some dt →
      extract_duration_minutes dt = none →
      extractTravelData p = none) := by
  refine ⟨by decide, by decide, ?_⟩
  intro p dt hpr hf hparse
  simp only [extractTravelData]
  have hfb : fallbackStep p (findFirstText p distance_selectors looksLikeDistance)
      (trafficStatus p.content) = none := by
    simp only [fallbackStep, hf, attemptParse, hparse]
  cases hdt : findFirstText p duration_selectors looksLikeDuration with
  | none =>
    simp only [hdt]
    exact hfb
  | some dtx =>
    have hex : extract_duration_minutes dtx = none := by
      rw [hdt] at hpr
      simpa using hpr
    simp only [hdt, attemptParse, hex]
    exact hfb

/-- Witness for C4 (amended) on a page whose body parses to zero minutes. -/
theorem C4_fallback_witness : extractTravelData pZero = none :=
  C4_fallback_amended.2.2 pZero "0 min" (by decide) (by decide) (by decide)

/-- C5: the traffic-status scan checks "heavy traffic", then "moderate
traffic", then "light traffic" case-insensitively in that priority order,
the first phrase found winning (a page containing both light and heavy
reports Heavy), and yields Unknown when no phrase is present. -/
theorem C5_traffic_priority :
    (∀ c : String, pyContains (pyLower c) "heavy traffic" = true →
      trafficStatus c = "Heavy traffic") ∧
    (∀ c : String, pyContains (pyLower c) "heavy traffic" = false →
      pyContains (pyLower c) "moderate traffic" = true →
      trafficStatus c = "Moderate traffic") ∧
    (∀ c : String, pyContains (pyLower c) "heavy traffic" = false →
      pyContains (pyLower c) "moderate traffic" = false →
      pyContains (pyLower c) "light traffic" = true →
      trafficStatus c = "Light traffic") ∧
    (∀ c : String, pyContains (pyLower c) "heavy traffic" = false →
      pyContains (pyLower c) "moderate traffic" = false →
      pyContains (pyLower c) "light traffic" = false →
      trafficStatus c = "Unknown") ∧
    trafficStatus "Route has light traffic and heavy traffic ahead" =
      "Heavy traffic" := by
  refine ⟨?_, ?_, ?_, ?_, by decide⟩
  · intro c h1
    simp [trafficStatus, traffic_of_heavy _ h1, h1]
  · intro c h1 h2
    simp [trafficStatus, traffic_of_moderate _ h2, h1, h2]
  · intro c h1 h2 h3
    simp [trafficStatus, traffic_of_light _ h3, h1, h2, h3]
  · intro c h1 h2 h3
    cases hg : pyContains (pyLower c) "traffic" <;>
      simp [trafficStatus, hg, h1, h2, h3]

/-- Witness for C5 on a page containing "heavy traffic". -/
theorem C5_traffic_priority_witness :
    trafficStatus "heavy traffic ahead" = "Heavy traffic" :=
  C5_traffic_priority.1 "heavy traffic ahead" (by decide)

/-- C6: the traffic-status computation gated on the coarse "traffic"
substring pre-check equals, on every page content, the same computation with
the pre-check removed: the gate is a pure optimization. -/
theorem C6_gate_refinement (c : String) : trafficStatus c = trafficStatusNoGate c := by
  cases hg : pyContains (pyLower c) "traffic" with
  | true => simp [trafficStatus, trafficStatusNoGate, hg]
  | false =>
    have hH : pyContains (pyLower c) "heavy traffic" = false := by
      cases h : pyContains (pyLower c) "heavy traffic" with
      | false => rfl
      | true => simp [traffic_of_heavy _ h] at hg
    have hM : pyContains (pyLower c) "moderate traffic" = false := by
      cases h : pyContains (pyLower c) "moderate traffic" with
      | false => rfl
      | true => simp [traffic_of_moderate _ h] at hg
    have hL : pyContains (pyLower c) "light traffic" = false := by
      cases h : pyContains (pyLower c) "light traffic" with
      | false => rfl
      | true => simp [traffic_of_light _ h] at hg
    simp [trafficStatus, trafficStatusNoGate, hg, hH, hM, hL]

/-- C7: the run coordinator rejects every direction outside
home_to_office/office_to_home before any network or persistence activity,
and on a failed scrape it reports the failure without invoking the
Persistence Adapter. -/
theorem C7_coordinator_gating :
    (∀ (d : String) (h : Nat) (sr : Option TravelData) (ok : Bool),
      d ≠ "home_to_office" → d ≠ "office_to_home" →
      run (some d) h sr ok =
        { scrapeCalled := false, saveCalled := false, report := "invalid_direction" }) ∧
    (∀ (dopt : Option String) (h : Nat) (ok : Bool),
      (run dopt h none ok).saveCalled = false ∧
      ((run dopt h none ok).scrapeCalled = true →
        (run dopt h none ok).report = "extract_failed")) := by
  constructor
  · intro d h sr ok h1 h2
    simp [run, h1, h2]
  · intro dopt h ok
    by_cases hc : dopt.getD (determine_direction_from_time h) = "home_to_office" ∨
        dopt.getD (determine_direction_from_time h) = "office_to_home"
    · simp [run, hc]
    · simp [run, hc]

/-- Witness for C7 at the invalid direction "sideways". -/
theorem C7_coordinator_gating_witness :
    run (some "sideways") 0 none false =
      { scrapeCalled := false, saveCalled := false, report := "invalid_direction" } :=
  C7_coordinator_gating.1 "sideways" 0 none false (by decide) (by decide)

/-- C8: the scrape orchestrator never raises to its caller — every exception
of the navigation/extraction body is converted into a no-result return; on a
clean navigation it passes the extractor's result through. -/
theorem C8_orchestrator_no_raise :
    (∀ (nav : NavResult) (m : String),
      (scrapeExec nav).2 = Except.error m → (scrape_google_maps nav).2 = none) ∧
    (∀ p : Page, (scrape_google_maps (NavResult.ok p)).2 = extractTravelData p) := by
  constructor
  · intro nav m h
    cases nav with
    | err s => rfl
    | ok p => simp [scrapeExec] at h
  · intro p
    rfl

/-- Witness for C8 on a navigation that raises. -/
theorem C8_orchestrator_no_raise_witness :
    (scrape_google_maps (NavResult.err "timeout")).2 = none :=
  C8_orchestrator_no_raise.1 (NavResult.err "timeout") "timeout" rfl

/-- C9: on every outcome of a scrape — success, extraction failure, or an
exception during navigation — the browsing session is closed again by the
time the call returns, and the last resource event is the scoped Playwright
shutdown. -/
theorem C9_session_released (nav : NavResult) :
    browserOpenAfter (scrape_google_maps nav).1 = false ∧
    (scrape_google_maps nav).1.getLast? = some ScrapeEvent.stopPlaywright := by
  cases nav with
  | err m => exact ⟨rfl, rfl⟩
  | ok p => exact ⟨rfl, rfl⟩

/-- C10: every record the page extractor returns, on the selector path or
the fallback path, carries a duration_minutes equal to the parse of its own
duration_text, and that value is at least 1. -/
theorem C10_record_invariant (p : Page) (r : TravelData)
    (h : extractTravelData p = some r) :
    extract_duration_minutes r.duration_text = some r.duration_minutes ∧
      1 ≤ r.duration_minutes := by
  simp only [extractTravelData] at h
  cases hdt : findFirstText p duration_selectors looksLikeDuration with
  | none =>
    simp only [hdt] at h
    exact fallbackStep_inv p _ _ r h
  | some dt =>
    simp only [hdt] at h
    cases hap : attemptParse (findFirstText p distance_selectors looksLikeDistance)
        (trafficStatus p.content) dt with
    | some r0 =>
      simp only [hap] at h
      exact (Option.some.inj h) ▸ attemptParse_inv _ _ dt r0 hap
    | none =>
      simp only [hap] at h
      exact fallbackStep_inv p _ _ r h

/-- Witness for C10 on a page whose fourth duration selector matches. -/
theorem C10_record_invariant_witness :
    extract_duration_minutes
        (TravelData.mk "25 min" 25 "N/A" "Unknown").duration_text =
      some (TravelData.mk "25 min" 25 "N/A" "Unknown").duration_minutes ∧
    1 ≤ (TravelData.mk "25 min" 25 "N/A" "Unknown").duration_minutes :=
  C10_record_invariant pSample (TravelData.mk "25 min" 25 "N/A" "Unknown") (by decide)

end TrafficMonitor
